import Mathlib

/-!
Verification of the robespierre client-side chat model: the event protocol
(robespierre-models, events.rs) and the cache-or-fetch resolution funnel
(robespierre, model.rs). Rust enums become Lean inductives, structs become
structures, and the asynchronous resolution methods become explicit
state-passing functions that additionally report how many network fetches
they performed. Machine integers on the wire (u32, u8) are carried as Nat:
no arithmetic is performed on them, so no overflow can occur.
-/

set_option maxHeartbeats 1000000

namespace Robespierre

/-- Identifier of a channel. Modelled from the spec: the id module is not under
src/; section 3 specifies opaque, strongly-typed, equality-comparable IDs whose
underlying representation is a string. -/
structure ChannelId where
  s : String
deriving DecidableEq, Repr

/-- Identifier of a server. Modelled from the spec (section 3), as ChannelId. -/
structure ServerId where
  s : String
deriving DecidableEq, Repr

/-- Identifier of a user. Modelled from the spec (section 3), as ChannelId. -/
structure UserId where
  s : String
deriving DecidableEq, Repr

/-- Identifier of a message. Modelled from the spec (section 3), as ChannelId. -/
structure MessageId where
  s : String
deriving DecidableEq, Repr

/-- Identifier of a server member. Modelled from the spec (section 3). -/
structure MemberId where
  s : String
deriving DecidableEq, Repr

/-- Identifier of a role. Modelled from the spec (section 3). -/
structure RoleId where
  s : String
deriving DecidableEq, Repr

/-- Identifier of an attachment. Modelled from the spec (section 3). -/
structure AttachmentId where
  s : String
deriving DecidableEq, Repr

/-- Channel entity. Modelled from the spec: channel.rs is not under src/;
section 3 specifies a record with a stable ID and mutable fields, and model.rs
uses the server_id accessor, so the record carries an optional owning server. -/
structure Channel where
  id : ChannelId
  name : String
  description : Option String
  server : Option ServerId
deriving DecidableEq, Repr

/-- Accessor used by model.rs: the server a channel belongs to, when any. -/
def Channel.server_id (self : Channel) : Option ServerId :=
  self.server

/-- Server entity. Modelled from the spec (section 3). -/
structure Server where
  id : ServerId
  name : String
  description : Option String
deriving DecidableEq, Repr

/-- User entity. Modelled from the spec (section 3). -/
structure User where
  id : UserId
  username : String
  status : Option String
deriving DecidableEq, Repr

/-- Server member entity. Modelled from the spec (section 3). -/
structure Member where
  id : MemberId
  nickname : Option String
deriving DecidableEq, Repr

/-- Message entity. Modelled from the spec: channel.rs is not under src/; the
fields id, channel and author are the ones model.rs reads. -/
structure Message where
  id : MessageId
  channel : ChannelId
  author : UserId
  content : String
deriving DecidableEq, Repr

/-- All-optional projection of Channel (section 3, Partial of an entity).
Modelled from the spec: channel.rs is not under src/. -/
structure PartialChannel where
  name : Option String
  description : Option String
deriving DecidableEq, Repr

/-- All-optional projection of Server. Modelled from the spec. -/
structure PartialServer where
  name : Option String
  description : Option String
deriving DecidableEq, Repr

/-- All-optional projection of User. Modelled from the spec. -/
structure PartialUser where
  username : Option String
  status : Option String
deriving DecidableEq, Repr

/-- All-optional projection of Member. Modelled from the spec. -/
structure PartialMember where
  nickname : Option String
deriving DecidableEq, Repr

/-- All-optional projection of a role. Modelled from the spec. -/
structure PartialRole where
  name : Option String
  colour : Option String
deriving DecidableEq, Repr

/-- All-optional projection of Message. Modelled from the spec. -/
structure PartialMessage where
  content : Option String
deriving DecidableEq, Repr

/-- Clearable-field enumeration for channels. Modelled from the spec: the field
enumerations live outside src/; section 3 requires one tag per optional field. -/
inductive ChannelField where
  | Description
  | Icon
deriving DecidableEq, Repr

/-- Clearable-field enumeration for servers. Modelled from the spec. -/
inductive ServerField where
  | Description
  | Icon
deriving DecidableEq, Repr

/-- Clearable-field enumeration for members. Modelled from the spec. -/
inductive MemberField where
  | Nickname
  | Avatar
deriving DecidableEq, Repr

/-- Clearable-field enumeration for roles. Modelled from the spec. -/
inductive RoleField where
  | Colour
deriving DecidableEq, Repr

/-- Clearable-field enumeration for users. Modelled from the spec. -/
inductive UserField where
  | Avatar
  | StatusText
deriving DecidableEq, Repr

/-- Relationship status carried by UserRelationship events. Modelled from the
spec: user.rs is not under src/. -/
inductive RelationshipStatus where
  | Friend
  | Blocked
  | Incoming
  | Outgoing
deriving DecidableEq, Repr

/-- Opaque failure from the network collaborator (spec section 7): the core
does not interpret its cause. -/
structure FetchError where
  message : String
deriving DecidableEq, Repr

/-- Cache collaborator state: one key-to-entity partition per entity kind
(spec sections 3 and 4.3). Modelled from the spec: robespierre-cache is not
under src/; model.rs consumes it through get_channel, get_server, get_user
and CommitToCache. -/
structure Cache where
  channels : ChannelId → Option Channel
  servers : ServerId → Option Server
  users : UserId → Option User
  members : MemberId → Option Member

/-- Local lookup of a channel, as called by model.rs. -/
def Cache.get_channel (c : Cache) (i : ChannelId) : Option Channel :=
  c.channels i

/-- Local lookup of a server, as called by model.rs. -/
def Cache.get_server (c : Cache) (i : ServerId) : Option Server :=
  c.servers i

/-- Local lookup of a user, as called by model.rs. -/
def Cache.get_user (c : Cache) (i : UserId) : Option User :=
  c.users i

/-- Local lookup of a member. Modelled from the spec (section 4.3). -/
def Cache.get_member (c : Cache) (i : MemberId) : Option Member :=
  c.members i

/-- Insert or overwrite a channel keyed by its own ID. Modelled from the spec
(section 4.3, commit): robespierre-cache is not under src/. -/
def Cache.commit_channel (c : Cache) (ch : Channel) : Cache :=
  { c with channels := fun j => if j = ch.id then some ch else c.channels j }

/-- Insert or overwrite a server keyed by its own ID. Modelled from the spec. -/
def Cache.commit_server (c : Cache) (sv : Server) : Cache :=
  { c with servers := fun j => if j = sv.id then some sv else c.servers j }

/-- Insert or overwrite a user keyed by its own ID. Modelled from the spec. -/
def Cache.commit_user (c : Cache) (u : User) : Cache :=
  { c with users := fun j => if j = u.id then some u else c.users j }

/-- Insert or overwrite a member keyed by its own ID. Modelled from the spec. -/
def Cache.commit_member (c : Cache) (m : Member) : Cache :=
  { c with members := fun j => if j = m.id then some m else c.members j }

/-- Network-fetch collaborator: one fetch function per entity kind (spec
section 6), the shape model.rs calls through ctx.http(). -/
structure Http where
  fetch_channel : ChannelId → Except FetchError Channel
  fetch_server : ServerId → Except FetchError Server
  fetch_user : UserId → Except FetchError User
  fetch_member : MemberId → Except FetchError Member

/-- CacheHttp context consumed by model.rs: an optional cache (the cache
feature being off, or ctx.cache() returning None, is cache = none, following
the spec's design note that conditional compilation is modelled as a possibly
absent capability) and the network collaborator. -/
structure Context where
  cache : Option Cache
  http : Http

/-- CommitToCache for channels, from model.rs together with robespierre-cache:
with no cache configured it returns its argument unchanged (the cfg(not(cache))
trait in model.rs lines 22-33); with a cache it inserts by the entity's own ID
and returns the committed value (modelled from the spec, section 4.3, since
robespierre-cache is not under src/). -/
def Channel.commit_to_cache (ch : Channel) (ctx : Context) : Channel × Context :=
  match ctx.cache with
  | some c => (ch, { ctx with cache := some (c.commit_channel ch) })
  | none => (ch, ctx)

/-- CommitToCache for servers; see Channel.commit_to_cache. -/
def Server.commit_to_cache (sv : Server) (ctx : Context) : Server × Context :=
  match ctx.cache with
  | some c => (sv, { ctx with cache := some (c.commit_server sv) })
  | none => (sv, ctx)

/-- CommitToCache for users; see Channel.commit_to_cache. -/
def User.commit_to_cache (u : User) (ctx : Context) : User × Context :=
  match ctx.cache with
  | some c => (u, { ctx with cache := some (c.commit_user u) })
  | none => (u, ctx)

/-- CommitToCache for members; see Channel.commit_to_cache. Modelled from the
spec for the member kind. -/
def Member.commit_to_cache (m : Member) (ctx : Context) : Member × Context :=
  match ctx.cache with
  | some c => (m, { ctx with cache := some (c.commit_member m) })
  | none => (m, ctx)

/-- Cached channel for an ID, combining the two nested if-let tests of
ChannelIdExt::channel (model.rs lines 156-161): none when no cache is
configured or the configured cache misses. -/
def cachedChannel (ctx : Context) (i : ChannelId) : Option Channel :=
  match ctx.cache with
  | some cache => cache.get_channel i
  | none => none

/-- Cached server for an ID; see cachedChannel (model.rs lines 212-217). -/
def cachedServer (ctx : Context) (i : ServerId) : Option Server :=
  match ctx.cache with
  | some cache => cache.get_server i
  | none => none

/-- Cached user for an ID; see cachedChannel (model.rs lines 236-241). -/
def cachedUser (ctx : Context) (i : UserId) : Option User :=
  match ctx.cache with
  | some cache => cache.get_user i
  | none => none

/-- Cached member for an ID; see cachedChannel. Modelled from the spec for the
member kind. -/
def cachedMember (ctx : Context) (i : MemberId) : Option Member :=
  match ctx.cache with
  | some cache => cache.get_member i
  | none => none

/-- ChannelIdExt::channel (model.rs lines 155-169): return the cached channel
if any, otherwise fetch over the network, propagate a fetch error verbatim,
and commit a successful fetch before returning it. The result carries the
updated context and the number of network fetches performed. -/
def ChannelId.channel (self : ChannelId) (ctx : Context) :
    Except FetchError Channel × Context × Nat :=
  match cachedChannel ctx self with
  | some channel => (.ok channel, ctx, 0)
  | none =>
    match ctx.http.fetch_channel self with
    | .error e => (.error e, ctx, 1)
    | .ok fetched =>
      match fetched.commit_to_cache ctx with
      | (ch, ctx2) => (.ok ch, ctx2, 1)

/-- ServerIdExt::server (model.rs lines 211-225), same shape as
ChannelIdExt::channel. -/
def ServerId.server (self : ServerId) (ctx : Context) :
    Except FetchError Server × Context × Nat :=
  match cachedServer ctx self with
  | some server => (.ok server, ctx, 0)
  | none =>
    match ctx.http.fetch_server self with
    | .error e => (.error e, ctx, 1)
    | .ok fetched =>
      match fetched.commit_to_cache ctx with
      | (sv, ctx2) => (.ok sv, ctx2, 1)

/-- UserIdExt::user (model.rs lines 235-249), same shape as
ChannelIdExt::channel. -/
def UserId.user (self : UserId) (ctx : Context) :
    Except FetchError User × Context × Nat :=
  match cachedUser ctx self with
  | some user => (.ok user, ctx, 0)
  | none =>
    match ctx.http.fetch_user self with
    | .error e => (.error e, ctx, 1)
    | .ok fetched =>
      match fetched.commit_to_cache ctx with
      | (u, ctx2) => (.ok u, ctx2, 1)

/-- Member resolver. Modelled from the spec: the member accessor is not under
src/; section 4.4 instantiates the same funnel for the member kind. -/
def MemberId.member (self : MemberId) (ctx : Context) :
    Except FetchError Member × Context × Nat :=
  match cachedMember ctx self with
  | some member => (.ok member, ctx, 0)
  | none =>
    match ctx.http.fetch_member self with
    | .error e => (.error e, ctx, 1)
    | .ok fetched =>
      match fetched.commit_to_cache ctx with
      | (m, ctx2) => (.ok m, ctx2, 1)

/-- Cache Port get on a possibly absent cache partition, in the words of spec
section 4.3: when no cache is configured, get always returns absent. -/
def portGet {ι α : Type} (port : Option (ι → Option α)) (i : ι) : Option α :=
  match port with
  | some f => f i
  | none => none

/-- Cache Port commit on a possibly absent cache partition, in the words of
spec section 4.3: insert or overwrite by the entity's own ID; when no cache is
configured, commit leaves the port unchanged. -/
def portCommit {ι α : Type} [DecidableEq ι] (getId : α → ι)
    (port : Option (ι → Option α)) (e : α) : Option (ι → Option α) :=
  match port with
  | some f => some (fun j => if j = getId e then some e else f j)
  | none => none

/-- Resolution Funnel in the words of spec section 4.4: cache-first,
fetch-on-miss, write-through, generic over the entity kind. Stated from the
spec for comparison with the per-kind resolvers translated from model.rs. -/
def specResolve {ι α : Type} [DecidableEq ι] (getId : α → ι)
    (fetch : ι → Except FetchError α) (port : Option (ι → Option α)) (i : ι) :
    Except FetchError α × Option (ι → Option α) × Nat :=
  match portGet port i with
  | some e => (.ok e, port, 0)
  | none =>
    match fetch i with
    | .error e => (.error e, port, 1)
    | .ok fetched => (.ok fetched, portCommit getId port fetched, 1)

/-- Projection of a channel-resolver result onto what the spec funnel works
on: the result, the channel partition of the updated context, and the fetch
count. -/
def projChannels (x : Except FetchError Channel × Context × Nat) :
    Except FetchError Channel × Option (ChannelId → Option Channel) × Nat :=
  (x.1, x.2.1.cache.map Cache.channels, x.2.2)

/-- Projection of a server-resolver result; see projChannels. -/
def projServers (x : Except FetchError Server × Context × Nat) :
    Except FetchError Server × Option (ServerId → Option Server) × Nat :=
  (x.1, x.2.1.cache.map Cache.servers, x.2.2)

/-- Projection of a user-resolver result; see projChannels. -/
def projUsers (x : Except FetchError User × Context × Nat) :
    Except FetchError User × Option (UserId → Option User) × Nat :=
  (x.1, x.2.1.cache.map Cache.users, x.2.2)

/-- Projection of a member-resolver result; see projChannels. -/
def projMembers (x : Except FetchError Member × Context × Nat) :
    Except FetchError Member × Option (MemberId → Option Member) × Nat :=
  (x.1, x.2.1.cache.map Cache.members, x.2.2)

/-- Reply reference attached to an outgoing message (robespierre-models
channel::ReplyData, read through its use in model.rs lines 84-87): the ID of
the message replied to and whether its author is mentioned. -/
structure ReplyData where
  id : MessageId
  mention : Bool
deriving DecidableEq, Repr

/-- CreateMessage builder state (model.rs lines 45-50). -/
structure CreateMessage where
  content : String
  attachments : List AttachmentId
  replies : List ReplyData
deriving DecidableEq, Repr

/-- Default CreateMessage (derive(Default) in model.rs line 45). -/
def CreateMessage.default : CreateMessage :=
  ⟨"", [], []⟩

/-- CreateMessage::content (model.rs lines 53-56); named with a prime because
Lean reserves the field name for the projection. -/
def CreateMessage.content' (m : CreateMessage) (c : String) : CreateMessage :=
  { m with content := c }

/-- CreateMessage::attachments (model.rs lines 58-61). -/
def CreateMessage.attachments' (m : CreateMessage) (a : List AttachmentId) :
    CreateMessage :=
  { m with attachments := m.attachments ++ a }

/-- CreateMessage::attachment (model.rs lines 63-66). -/
def CreateMessage.attachment' (m : CreateMessage) (a : AttachmentId) :
    CreateMessage :=
  { m with attachments := m.attachments ++ [a] }

/-- CreateMessage::replies (model.rs lines 68-71). -/
def CreateMessage.replies' (m : CreateMessage) (r : List ReplyData) :
    CreateMessage :=
  { m with replies := m.replies ++ r }

/-- CreateMessage::reply (model.rs lines 73-76). -/
def CreateMessage.reply' (m : CreateMessage) (r : ReplyData) : CreateMessage :=
  { m with replies := m.replies ++ [r] }

/-- Request handed to the HTTP collaborator by send_message: channel, content,
nonce, attachments and replies, in the argument order of model.rs line 188. -/
structure SendMessageRequest where
  channel : ChannelId
  content : String
  nonce : String
  attachments : List AttachmentId
  replies : List ReplyData
deriving DecidableEq, Repr

/-- ChannelIdExt::send_message (model.rs lines 179-196): build a CreateMessage
from the default by the caller's closure and hand the request to HTTP. The
fresh ULID nonce generated there is taken as the argument nonce. -/
def ChannelId.send_message (self : ChannelId) (nonce : String)
    (message : CreateMessage → CreateMessage) : SendMessageRequest :=
  let m := message CreateMessage.default
  ⟨self, m.content, nonce, m.attachments, m.replies⟩

/-- MessageExt::reply (model.rs lines 81-90): send to the message's channel,
with the given content and one reply reference to the message itself, not
mentioning its author. -/
def Message.reply (self : Message) (nonce : String) (content : String) :
    SendMessageRequest :=
  self.channel.send_message nonce
    (fun m => (m.content' content).reply' ⟨self.id, false⟩)

/-- MessageExt::reply_ping (model.rs lines 92-101): textually identical body
to MessageExt::reply, mention false included. -/
def Message.reply_ping (self : Message) (nonce : String) (content : String) :
    SendMessageRequest :=
  self.channel.send_message nonce
    (fun m => (m.content' content).reply' ⟨self.id, false⟩)

/-- JSON value model for the wire protocol (spec section 6): objects with
string keys, strings, numbers and arrays. -/
inductive Json where
  | str : String → Json
  | num : Nat → Json
  | arr : List Json → Json
  | obj : List (String × Json) → Json

/-- First value bound to a key in a JSON object field list. -/
def lookupField : List (String × Json) → String → Option Json
  | [], _ => none
  | (k, v) :: rest, key => if k = key then some v else lookupField rest key

/-- Value of a key in a JSON object; none on other JSON shapes. Extra unknown
keys are simply never looked up, matching the requirement that they be
ignored. -/
def Json.get? : Json → String → Option Json
  | .obj fields, key => lookupField fields key
  | _, _ => none

/-- Decode failure for inbound wire messages (spec section 7,
ProtocolDecodeError): an unrecognized discriminator carrying the raw tag, a
missing or non-string discriminator, or a structural mismatch carrying the
offending payload field. -/
inductive ProtocolDecodeError where
  | unknownTag (tag : String)
  | missingTag
  | badPayload (field : String)
deriving DecidableEq, Repr

/-- Required string field of a payload. -/
def getStr (j : Json) (k : String) : Except ProtocolDecodeError String :=
  match j.get? k with
  | some (.str s) => .ok s
  | _ => .error (.badPayload k)

/-- Required numeric field of a payload. -/
def getNum (j : Json) (k : String) : Except ProtocolDecodeError Nat :=
  match j.get? k with
  | some (.num n) => .ok n
  | _ => .error (.badPayload k)

/-- Optional string field of a payload: absence is none, following serde's
treatment of Option fields. -/
def getOptStr (j : Json) (k : String) :
    Except ProtocolDecodeError (Option String) :=
  match j.get? k with
  | some (.str s) => .ok (some s)
  | some _ => .error (.badPayload k)
  | none => .ok none

/-- Required array field of a payload. -/
def getArr (j : Json) (k : String) : Except ProtocolDecodeError (List Json) :=
  match j.get? k with
  | some (.arr l) => .ok l
  | _ => .error (.badPayload k)

/-- Required subobject field of a payload. -/
def getField (j : Json) (k : String) : Except ProtocolDecodeError Json :=
  match j.get? k with
  | some v => .ok v
  | none => .error (.badPayload k)

/-- Object entry for an optional value: present values become one key-value
pair, absent values no pair at all. -/
def optJsonField {α : Type} (k : String) (enc : α → Json) :
    Option α → List (String × Json)
  | some v => [(k, enc v)]
  | none => []

/-- Object entry for an optional string. -/
def optStrField (k : String) (v : Option String) : List (String × Json) :=
  optJsonField k Json.str v

/-- Decode every element of a JSON array, failing on the first bad element. -/
def decodeList {α : Type} (dec : Json → Except ProtocolDecodeError α) :
    List Json → Except ProtocolDecodeError (List α)
  | [] => .ok []
  | x :: xs => do
    let a ← dec x
    let rest ← decodeList dec xs
    .ok (a :: rest)

/-- Outbound protocol messages (events.rs lines 14-38, ClientToServerEvent).
The deprecated data field of Ping, a one-element u8 tuple on the wire, is
carried as its single component. -/
inductive ClientToServerEvent where
  | Authenticate (user_id : UserId) (session_token : String)
  | AuthenticateBot (token : String)
  | BeginTyping (channel : ChannelId)
  | EndTyping (channel : ChannelId)
  | Ping (time : Nat) (data : Nat)
deriving DecidableEq, Repr

/-- Serialization of outbound messages as serde derives it from events.rs:
internally tagged under the key type, with AuthenticateBot renamed to
Authenticate (events.rs line 22) and Ping's one-element tuple serialized as a
one-element array. -/
def ClientToServerEvent.encode : ClientToServerEvent → Json
  | .Authenticate uid tok =>
    .obj [("type", .str "Authenticate"), ("user_id", .str uid.s),
      ("session_token", .str tok)]
  | .AuthenticateBot tok =>
    .obj [("type", .str "Authenticate"), ("token", .str tok)]
  | .BeginTyping ch =>
    .obj [("type", .str "BeginTyping"), ("channel", .str ch.s)]
  | .EndTyping ch =>
    .obj [("type", .str "EndTyping"), ("channel", .str ch.s)]
  | .Ping t d =>
    .obj [("type", .str "Ping"), ("time", .num t), ("data", .arr [.num d])]

/-- Modelled from the spec: events.rs derives only Serialize for
ClientToServerEvent, so its decoder is not in the repository; the spec's
round-trip property (section 8) and the shared Authenticate discriminator
with one active identity mode per connection (section 4.1) determine this
decoder, which disambiguates the two authentication shapes by payload. -/
def ClientToServerEvent.decode (j : Json) :
    Except ProtocolDecodeError ClientToServerEvent :=
  match j.get? "type" with
  | some (.str tag) =>
    if tag = "Authenticate" then
      match j.get? "user_id" with
      | some _ => do
        let uid ← getStr j "user_id"
        let tok ← getStr j "session_token"
        .ok (.Authenticate ⟨uid⟩ tok)
      | none => do
        let tok ← getStr j "token"
        .ok (.AuthenticateBot tok)
    else if tag = "BeginTyping" then do
      let ch ← getStr j "channel"
      .ok (.BeginTyping ⟨ch⟩)
    else if tag = "EndTyping" then do
      let ch ← getStr j "channel"
      .ok (.EndTyping ⟨ch⟩)
    else if tag = "Ping" then do
      let t ← getNum j "time"
      match j.get? "data" with
      | some (.arr [.num d]) => .ok (.Ping t d)
      | _ => .error (.badPayload "data")
    else .error (.unknownTag tag)
  | _ => .error .missingTag

/-- Wire form of a User. Modelled from the spec: entity records live outside
src/; optional fields are present on the wire exactly when set. -/
def User.encode (u : User) : Json :=
  .obj (("id", .str u.id.s) :: ("username", .str u.username) ::
    optStrField "status" u.status)

/-- Decoder for a User object. Modelled from the spec. -/
def User.decode (j : Json) : Except ProtocolDecodeError User := do
  let i ← getStr j "id"
  let n ← getStr j "username"
  let st ← getOptStr j "status"
  .ok ⟨⟨i⟩, n, st⟩

/-- Wire form of a Server. Modelled from the spec. -/
def Server.encode (s : Server) : Json :=
  .obj (("id", .str s.id.s) :: ("name", .str s.name) ::
    optStrField "description" s.description)

/-- Decoder for a Server object. Modelled from the spec. -/
def Server.decode (j : Json) : Except ProtocolDecodeError Server := do
  let i ← getStr j "id"
  let n ← getStr j "name"
  let d ← getOptStr j "description"
  .ok ⟨⟨i⟩, n, d⟩

/-- Wire form of a Channel. Modelled from the spec. -/
def Channel.encode (c : Channel) : Json :=
  .obj (("id", .str c.id.s) :: ("name", .str c.name) ::
    (optStrField "description" c.description ++
      optStrField "server" (c.server.map ServerId.s)))

/-- Decoder for a Channel object. Modelled from the spec. -/
def Channel.decode (j : Json) : Except ProtocolDecodeError Channel := do
  let i ← getStr j "id"
  let n ← getStr j "name"
  let d ← getOptStr j "description"
  let sv ← getOptStr j "server"
  .ok ⟨⟨i⟩, n, d, sv.map (fun s => ⟨s⟩)⟩

/-- Wire form of a Member. Modelled from the spec. -/
def Member.encode (m : Member) : Json :=
  .obj (("id", .str m.id.s) :: optStrField "nickname" m.nickname)

/-- Decoder for a Member object. Modelled from the spec. -/
def Member.decode (j : Json) : Except ProtocolDecodeError Member := do
  let i ← getStr j "id"
  let n ← getOptStr j "nickname"
  .ok ⟨⟨i⟩, n⟩

/-- Wire fields of a Message, inlined into its event by serde(flatten).
Modelled from the spec. -/
def Message.encodeFields (m : Message) : List (String × Json) :=
  [("id", .str m.id.s), ("channel", .str m.channel.s),
    ("author", .str m.author.s), ("content", .str m.content)]

/-- Decoder for Message fields, read from the flattened event object.
Modelled from the spec. -/
def Message.decode (j : Json) : Except ProtocolDecodeError Message := do
  let i ← getStr j "id"
  let ch ← getStr j "channel"
  let au ← getStr j "author"
  let co ← getStr j "content"
  .ok ⟨⟨i⟩, ⟨ch⟩, ⟨au⟩, co⟩

/-- Wire form of a PartialChannel: only the set fields appear. Modelled from
the spec (section 3, Partial of an entity). -/
def PartialChannel.encode (p : PartialChannel) : Json :=
  .obj (optStrField "name" p.name ++ optStrField "description" p.description)

/-- Decoder for a PartialChannel. Modelled from the spec. -/
def PartialChannel.decode (j : Json) :
    Except ProtocolDecodeError PartialChannel := do
  let n ← getOptStr j "name"
  let d ← getOptStr j "description"
  .ok ⟨n, d⟩

/-- Wire form of a PartialServer. Modelled from the spec. -/
def PartialServer.encode (p : PartialServer) : Json :=
  .obj (optStrField "name" p.name ++ optStrField "description" p.description)

/-- Decoder for a PartialServer. Modelled from the spec. -/
def PartialServer.decode (j : Json) :
    Except ProtocolDecodeError PartialServer := do
  let n ← getOptStr j "name"
  let d ← getOptStr j "description"
  .ok ⟨n, d⟩

/-- Wire form of a PartialUser. Modelled from the spec. -/
def PartialUser.encode (p : PartialUser) : Json :=
  .obj (optStrField "username" p.username ++ optStrField "status" p.status)

/-- Decoder for a PartialUser. Modelled from the spec. -/
def PartialUser.decode (j : Json) : Except ProtocolDecodeError PartialUser := do
  let n ← getOptStr j "username"
  let st ← getOptStr j "status"
  .ok ⟨n, st⟩

/-- Wire form of a PartialMember. Modelled from the spec. -/
def PartialMember.encode (p : PartialMember) : Json :=
  .obj (optStrField "nickname" p.nickname)

/-- Decoder for a PartialMember. Modelled from the spec. -/
def PartialMember.decode (j : Json) :
    Except ProtocolDecodeError PartialMember := do
  let n ← getOptStr j "nickname"
  .ok ⟨n⟩

/-- Wire form of a PartialRole. Modelled from the spec. -/
def PartialRole.encode (p : PartialRole) : Json :=
  .obj (optStrField "name" p.name ++ optStrField "colour" p.colour)

/-- Decoder for a PartialRole. Modelled from the spec. -/
def PartialRole.decode (j : Json) : Except ProtocolDecodeError PartialRole := do
  let n ← getOptStr j "name"
  let c ← getOptStr j "colour"
  .ok ⟨n, c⟩

/-- Wire form of a PartialMessage. Modelled from the spec. -/
def PartialMessage.encode (p : PartialMessage) : Json :=
  .obj (optStrField "content" p.content)

/-- Decoder for a PartialMessage. Modelled from the spec. -/
def PartialMessage.decode (j : Json) :
    Except ProtocolDecodeError PartialMessage := do
  let c ← getOptStr j "content"
  .ok ⟨c⟩

/-- Wire form of a ChannelField tag. Modelled from the spec. -/
def ChannelField.encode : ChannelField → Json
  | .Description => .str "Description"
  | .Icon => .str "Icon"

/-- Decoder for a ChannelField tag. Modelled from the spec. -/
def ChannelField.decode : Json → Except ProtocolDecodeError ChannelField
  | .str "Description" => .ok .Description
  | .str "Icon" => .ok .Icon
  | _ => .error (.badPayload "clear")

/-- Wire form of a ServerField tag. Modelled from the spec. -/
def ServerField.encode : ServerField → Json
  | .Description => .str "Description"
  | .Icon => .str "Icon"

/-- Decoder for a ServerField tag. Modelled from the spec. -/
def ServerField.decode : Json → Except ProtocolDecodeError ServerField
  | .str "Description" => .ok .Description
  | .str "Icon" => .ok .Icon
  | _ => .error (.badPayload "clear")

/-- Wire form of a MemberField tag. Modelled from the spec. -/
def MemberField.encode : MemberField → Json
  | .Nickname => .str "Nickname"
  | .Avatar => .str "Avatar"

/-- Decoder for a MemberField tag. Modelled from the spec. -/
def MemberField.decode : Json → Except ProtocolDecodeError MemberField
  | .str "Nickname" => .ok .Nickname
  | .str "Avatar" => .ok .Avatar
  | _ => .error (.badPayload "clear")

/-- Wire form of a RoleField tag. Modelled from the spec. -/
def RoleField.encode : RoleField → Json
  | .Colour => .str "Colour"

/-- Decoder for a RoleField tag. Modelled from the spec. -/
def RoleField.decode : Json → Except ProtocolDecodeError RoleField
  | .str "Colour" => .ok .Colour
  | _ => .error (.badPayload "clear")

/-- Wire form of a UserField tag. Modelled from the spec. -/
def UserField.encode : UserField → Json
  | .Avatar => .str "Avatar"
  | .StatusText => .str "StatusText"

/-- Decoder for a UserField tag. Modelled from the spec. -/
def UserField.decode : Json → Except ProtocolDecodeError UserField
  | .str "Avatar" => .ok .Avatar
  | .str "StatusText" => .ok .StatusText
  | _ => .error (.badPayload "clear")

/-- Wire form of a RelationshipStatus. Modelled from the spec. -/
def RelationshipStatus.encode : RelationshipStatus → Json
  | .Friend => .str "Friend"
  | .Blocked => .str "Blocked"
  | .Incoming => .str "Incoming"
  | .Outgoing => .str "Outgoing"

/-- Decoder for a RelationshipStatus. Modelled from the spec. -/
def RelationshipStatus.decode : Json → Except ProtocolDecodeError RelationshipStatus
  | .str "Friend" => .ok .Friend
  | .str "Blocked" => .ok .Blocked
  | .str "Incoming" => .ok .Incoming
  | .str "Outgoing" => .ok .Outgoing
  | _ => .error (.badPayload "status")

/-- Optional clear field of an update event: the serde(default) attribute in
events.rs makes an absent clear key decode to none. -/
def getOptClear {α : Type} (dec : Json → Except ProtocolDecodeError α)
    (j : Json) : Except ProtocolDecodeError (Option α) :=
  match j.get? "clear" with
  | none => .ok none
  | some v => do
    let c ← dec v
    .ok (some c)

/-- Bulk snapshot received after authentication (events.rs lines 41-47,
ReadyEvent). -/
structure ReadyEvent where
  users : List User
  servers : List Server
  channels : List Channel
  members : List Member
deriving DecidableEq, Repr

/-- Inbound protocol messages (events.rs lines 49-156, ServerToClientEvent).
Every update variant carries a partial patch and, per events.rs, an optional
single clearable-field tag. -/
inductive ServerToClientEvent where
  | Error (error : String)
  | Authenticated
  | Pong (time : Nat)
  | Ready (event : ReadyEvent)
  | Message (message : Message)
  | MessageUpdate (id : MessageId) (channel : ChannelId) (data : PartialMessage)
  | MessageDelete (id : MessageId) (channel : ChannelId)
  | ChannelCreate (channel : Channel)
  | ChannelUpdate (id : ChannelId) (data : PartialChannel)
      (clear : Option ChannelField)
  | ChannelDelete (id : ChannelId)
  | ChannelGroupJoin (id : ChannelId) (user : UserId)
  | ChannelGroupLeave (id : ChannelId) (user : UserId)
  | ChannelStartTyping (id : ChannelId) (user : UserId)
  | ChannelStopTyping (id : ChannelId) (user : UserId)
  | ChannelAck (id : ChannelId) (user : UserId) (message_id : MessageId)
  | ServerUpdate (id : ServerId) (data : PartialServer)
      (clear : Option ServerField)
  | ServerDelete (id : ServerId)
  | ServerMemberUpdate (id : MemberId) (data : PartialMember)
      (clear : Option MemberField)
  | ServerMemberJoin (id : ServerId) (user : UserId)
  | ServerMemberLeave (id : ServerId) (user : UserId)
  | ServerRoleUpdate (id : ServerId) (role_id : RoleId) (data : PartialRole)
      (clear : Option RoleField)
  | ServerRoleDelete (id : ServerId) (role_id : RoleId)
  | UserUpdate (id : UserId) (data : PartialUser) (clear : Option UserField)
  | UserRelationship (id : UserId) (user : UserId)
      (status : RelationshipStatus)
deriving DecidableEq, Repr

/-- Discriminator values of the inbound variants, in declaration order of
events.rs. -/
def inboundTags : List String :=
  ["Error", "Authenticated", "Pong", "Ready", "Message", "MessageUpdate",
    "MessageDelete", "ChannelCreate", "ChannelUpdate", "ChannelDelete",
    "ChannelGroupJoin", "ChannelGroupLeave", "ChannelStartTyping",
    "ChannelStopTyping", "ChannelAck", "ServerUpdate", "ServerDelete",
    "ServerMemberUpdate", "ServerMemberJoin", "ServerMemberLeave",
    "ServerRoleUpdate", "ServerRoleDelete", "UserUpdate", "UserRelationship"]

/-- Payload decoder for ChannelUpdate (events.rs lines 81-86). -/
def decodeChannelUpdate (j : Json) :
    Except ProtocolDecodeError ServerToClientEvent := do
  let i ← getStr j "id"
  let dj ← getField j "data"
  let d ← PartialChannel.decode dj
  let cl ← getOptClear ChannelField.decode j
  .ok (.ChannelUpdate ⟨i⟩ d cl)

/-- Payload decoder for ServerUpdate (events.rs lines 111-116). -/
def decodeServerUpdate (j : Json) :
    Except ProtocolDecodeError ServerToClientEvent := do
  let i ← getStr j "id"
  let dj ← getField j "data"
  let d ← PartialServer.decode dj
  let cl ← getOptClear ServerField.decode j
  .ok (.ServerUpdate ⟨i⟩ d cl)

/-- Payload decoder for ServerMemberUpdate (events.rs lines 120-125). -/
def decodeServerMemberUpdate (j : Json) :
    Except ProtocolDecodeError ServerToClientEvent := do
  let i ← getStr j "id"
  let dj ← getField j "data"
  let d ← PartialMember.decode dj
  let cl ← getOptClear MemberField.decode j
  .ok (.ServerMemberUpdate ⟨i⟩ d cl)

/-- Payload decoder for ServerRoleUpdate (events.rs lines 134-140). -/
def decodeServerRoleUpdate (j : Json) :
    Except ProtocolDecodeError ServerToClientEvent := do
  let i ← getStr j "id"
  let r ← getStr j "role_id"
  let dj ← getField j "data"
  let d ← PartialRole.decode dj
  let cl ← getOptClear RoleField.decode j
  .ok (.ServerRoleUpdate ⟨i⟩ ⟨r⟩ d cl)

/-- Payload decoder for UserUpdate (events.rs lines 145-150). -/
def decodeUserUpdate (j : Json) :
    Except ProtocolDecodeError ServerToClientEvent := do
  let i ← getStr j "id"
  let dj ← getField j "data"
  let d ← PartialUser.decode dj
  let cl ← getOptClear UserField.decode j
  .ok (.UserUpdate ⟨i⟩ d cl)

/-- Deserialization of inbound messages as serde derives it from events.rs:
internally tagged under the key type; an unrecognized tag is a decode error
carrying the raw tag, a recognized tag with a structurally invalid payload is
a decode error carrying the offending field, and nothing else fails. -/
def ServerToClientEvent.decode (j : Json) :
    Except ProtocolDecodeError ServerToClientEvent :=
  match j.get? "type" with
  | some (.str tag) =>
    if tag = "Error" then do
      let e ← getStr j "error"
      .ok (.Error e)
    else if tag = "Authenticated" then .ok .Authenticated
    else if tag = "Pong" then do
      let t ← getNum j "time"
      .ok (.Pong t)
    else if tag = "Ready" then do
      let us ← getArr j "users"
      let users ← decodeList User.decode us
      let ss ← getArr j "servers"
      let servers ← decodeList Server.decode ss
      let cs ← getArr j "channels"
      let channels ← decodeList Channel.decode cs
      let ms ← getArr j "members"
      let members ← decodeList Member.decode ms
      .ok (.Ready ⟨users, servers, channels, members⟩)
    else if tag = "Message" then do
      let m ← Message.decode j
      .ok (.Message m)
    else if tag = "MessageUpdate" then do
      let i ← getStr j "id"
      let ch ← getStr j "channel"
      let dj ← getField j "data"
      let d ← PartialMessage.decode dj
      .ok (.MessageUpdate ⟨i⟩ ⟨ch⟩ d)
    else if tag = "MessageDelete" then do
      let i ← getStr j "id"
      let ch ← getStr j "channel"
      .ok (.MessageDelete ⟨i⟩ ⟨ch⟩)
    else if tag = "ChannelCreate" then do
      let c ← Channel.decode j
      .ok (.ChannelCreate c)
    else if tag = "ChannelUpdate" then decodeChannelUpdate j
    else if tag = "ChannelDelete" then do
      let i ← getStr j "id"
      .ok (.ChannelDelete ⟨i⟩)
    else if tag = "ChannelGroupJoin" then do
      let i ← getStr j "id"
      let u ← getStr j "user"
      .ok (.ChannelGroupJoin ⟨i⟩ ⟨u⟩)
    else if tag = "ChannelGroupLeave" then do
      let i ← getStr j "id"
      let u ← getStr j "user"
      .ok (.ChannelGroupLeave ⟨i⟩ ⟨u⟩)
    else if tag = "ChannelStartTyping" then do
      let i ← getStr j "id"
      let u ← getStr j "user"
      .ok (.ChannelStartTyping ⟨i⟩ ⟨u⟩)
    else if tag = "ChannelStopTyping" then do
      let i ← getStr j "id"
      let u ← getStr j "user"
      .ok (.ChannelStopTyping ⟨i⟩ ⟨u⟩)
    else if tag = "ChannelAck" then do
      let i ← getStr j "id"
      let u ← getStr j "user"
      let m ← getStr j "message_id"
      .ok (.ChannelAck ⟨i⟩ ⟨u⟩ ⟨m⟩)
    else if tag = "ServerUpdate" then decodeServerUpdate j
    else if tag = "ServerDelete" then do
      let i ← getStr j "id"
      .ok (.ServerDelete ⟨i⟩)
    else if tag = "ServerMemberUpdate" then decodeServerMemberUpdate j
    else if tag = "ServerMemberJoin" then do
      let i ← getStr j "id"
      let u ← getStr j "user"
      .ok (.ServerMemberJoin ⟨i⟩ ⟨u⟩)
    else if tag = "ServerMemberLeave" then do
      let i ← getStr j "id"
      let u ← getStr j "user"
      .ok (.ServerMemberLeave ⟨i⟩ ⟨u⟩)
    else if tag = "ServerRoleUpdate" then decodeServerRoleUpdate j
    else if tag = "ServerRoleDelete" then do
      let i ← getStr j "id"
      let r ← getStr j "role_id"
      .ok (.ServerRoleDelete ⟨i⟩ ⟨r⟩)
    else if tag = "UserUpdate" then decodeUserUpdate j
    else if tag = "UserRelationship" then do
      let i ← getStr j "id"
      let u ← getStr j "user"
      let sj ← getField j "status"
      let st ← RelationshipStatus.decode sj
      .ok (.UserRelationship ⟨i⟩ ⟨u⟩ st)
    else .error (.unknownTag tag)
  | _ => .error .missingTag

/-- Modelled from the spec: events.rs derives only Deserialize for
ServerToClientEvent, so its encoder is not in the repository; this encoder
follows the wire layout of section 6 (a type discriminator plus the
variant's payload fields, flattened entities inline) and is the inverse the
spec's round-trip property (section 8) refers to. -/
def ServerToClientEvent.encode : ServerToClientEvent → Json
  | .Error e => .obj [("type", .str "Error"), ("error", .str e)]
  | .Authenticated => .obj [("type", .str "Authenticated")]
  | .Pong t => .obj [("type", .str "Pong"), ("time", .num t)]
  | .Ready ev =>
    .obj [("type", .str "Ready"),
      ("users", .arr (ev.users.map User.encode)),
      ("servers", .arr (ev.servers.map Server.encode)),
      ("channels", .arr (ev.channels.map Channel.encode)),
      ("members", .arr (ev.members.map Member.encode))]
  | .Message m => .obj (("type", .str "Message") :: m.encodeFields)
  | .MessageUpdate i ch d =>
    .obj [("type", .str "MessageUpdate"), ("id", .str i.s),
      ("channel", .str ch.s), ("data", d.encode)]
  | .MessageDelete i ch =>
    .obj [("type", .str "MessageDelete"), ("id", .str i.s),
      ("channel", .str ch.s)]
  | .ChannelCreate c => .obj (("type", .str "ChannelCreate") ::
      [("id", .str c.id.s), ("name", .str c.name)] ++
      optStrField "description" c.description ++
      optStrField "server" (c.server.map ServerId.s))
  | .ChannelUpdate i d cl =>
    .obj ([("type", .str "ChannelUpdate"), ("id", .str i.s),
      ("data", d.encode)] ++ optJsonField "clear" ChannelField.encode cl)
  | .ChannelDelete i =>
    .obj [("type", .str "ChannelDelete"), ("id", .str i.s)]
  | .ChannelGroupJoin i u =>
    .obj [("type", .str "ChannelGroupJoin"), ("id", .str i.s),
      ("user", .str u.s)]
  | .ChannelGroupLeave i u =>
    .obj [("type", .str "ChannelGroupLeave"), ("id", .str i.s),
      ("user", .str u.s)]
  | .ChannelStartTyping i u =>
    .obj [("type", .str "ChannelStartTyping"), ("id", .str i.s),
      ("user", .str u.s)]
  | .ChannelStopTyping i u =>
    .obj [("type", .str "ChannelStopTyping"), ("id", .str i.s),
      ("user", .str u.s)]
  | .ChannelAck i u m =>
    .obj [("type", .str "ChannelAck"), ("id", .str i.s), ("user", .str u.s),
      ("message_id", .str m.s)]
  | .ServerUpdate i d cl =>
    .obj ([("type", .str "ServerUpdate"), ("id", .str i.s),
      ("data", d.encode)] ++ optJsonField "clear" ServerField.encode cl)
  | .ServerDelete i => .obj [("type", .str "ServerDelete"), ("id", .str i.s)]
  | .ServerMemberUpdate i d cl =>
    .obj ([("type", .str "ServerMemberUpdate"), ("id", .str i.s),
      ("data", d.encode)] ++ optJsonField "clear" MemberField.encode cl)
  | .ServerMemberJoin i u =>
    .obj [("type", .str "ServerMemberJoin"), ("id", .str i.s),
      ("user", .str u.s)]
  | .ServerMemberLeave i u =>
    .obj [("type", .str "ServerMemberLeave"), ("id", .str i.s),
      ("user", .str u.s)]
  | .ServerRoleUpdate i r d cl =>
    .obj ([("type", .str "ServerRoleUpdate"), ("id", .str i.s),
      ("role_id", .str r.s), ("data", d.encode)] ++
      optJsonField "clear" RoleField.encode cl)
  | .ServerRoleDelete i r =>
    .obj [("type", .str "ServerRoleDelete"), ("id", .str i.s),
      ("role_id", .str r.s)]
  | .UserUpdate i d cl =>
    .obj ([("type", .str "UserUpdate"), ("id", .str i.s),
      ("data", d.encode)] ++ optJsonField "clear" UserField.encode cl)
  | .UserRelationship i u st =>
    .obj [("type", .str "UserRelationship"), ("id", .str i.s),
      ("user", .str u.s), ("status", st.encode)]

/-- Number of elements an optional value holds. -/
def optCount {α : Type} : Option α → Nat
  | none => 0
  | some _ => 1

/-- Number of field tags an inbound event names to clear, as determined by
the clear payloads declared in events.rs. -/
def ServerToClientEvent.clearedFieldCount : ServerToClientEvent → Nat
  | .ChannelUpdate _ _ cl => optCount cl
  | .ServerUpdate _ _ cl => optCount cl
  | .ServerMemberUpdate _ _ cl => optCount cl
  | .ServerRoleUpdate _ _ _ cl => optCount cl
  | .UserUpdate _ _ cl => optCount cl
  | _ => 0

/-- Example channel living in the example cache. -/
def chanEx : Channel :=
  ⟨⟨"c1"⟩, "general", none, none⟩

/-- Example channel reachable only over the network. -/
def chanEx2 : Channel :=
  ⟨⟨"c2"⟩, "random", none, none⟩

/-- Example user returned by the example network. -/
def userEx : User :=
  ⟨⟨"u1"⟩, "bob", none⟩

/-- Example member returned by the example network. -/
def memberEx : Member :=
  ⟨⟨"m1"⟩, none⟩

/-- Example cache holding exactly the channel chanEx. -/
def cacheEx : Cache :=
  ⟨fun i => if i = ⟨"c1"⟩ then some chanEx else none,
    fun _ => none, fun _ => none, fun _ => none⟩

/-- Example network: channel c2 exists, servers are down, users and members
resolve. -/
def httpEx : Http :=
  ⟨fun i => if i = ⟨"c2"⟩ then .ok chanEx2 else .error ⟨"down"⟩,
    fun _ => .error ⟨"down"⟩,
    fun _ => .ok userEx,
    fun _ => .ok memberEx⟩

/-- Example context with the example cache configured. -/
def ctxEx : Context :=
  ⟨some cacheEx, httpEx⟩

/-- Example context with no cache configured. -/
def ctxNoCache : Context :=
  ⟨none, httpEx⟩

/-- Example wire message: a ChannelUpdate whose clear key is absent. -/
def channelUpdateNoClearEx : Json :=
  .obj [("type", .str "ChannelUpdate"), ("id", .str "c1"),
    ("data", .obj [("name", .str "renamed")])]

theorem except_bind_ok {ε α β : Type} {x : Except ε α} {f : α → Except ε β}
    {y : β} : (x >>= f) = Except.ok y ↔
      ∃ a, x = Except.ok a ∧ f a = Except.ok y := by
  cases x <;> simp [Bind.bind, Except.bind]

theorem optCount_le_one {α : Type} (o : Option α) : optCount o ≤ 1 := by
  cases o <;> simp [optCount]

theorem decodeList_ok {α : Type} {dec : Json → Except ProtocolDecodeError α}
    {enc : α → Json} (h : ∀ a, dec (enc a) = .ok a) (l : List α) :
    decodeList dec (l.map enc) = .ok l := by
  induction l with
  | nil => rfl
  | cons a as ih => simp [decodeList, h, ih, Bind.bind, Except.bind]

theorem user_decode_encode (u : User) : User.decode (User.encode u) = .ok u := by
  obtain ⟨⟨i⟩, n, st⟩ := u
  cases st <;> rfl

theorem server_decode_encode (s : Server) :
    Server.decode (Server.encode s) = .ok s := by
  obtain ⟨⟨i⟩, n, d⟩ := s
  cases d <;> rfl

theorem channel_decode_encode (c : Channel) :
    Channel.decode (Channel.encode c) = .ok c := by
  obtain ⟨⟨i⟩, n, d, sv⟩ := c
  cases d <;> rcases sv with _ | ⟨x⟩ <;> rfl

theorem member_decode_encode (m : Member) :
    Member.decode (Member.encode m) = .ok m := by
  obtain ⟨⟨i⟩, n⟩ := m
  cases n <;> rfl

/-- C1: for every entity ID, the resolution function (ChannelIdExt::channel,
ServerIdExt::server, UserIdExt::user) returns the cached entity with zero
network fetches on a cache hit; on a cache miss it performs exactly one
fetch, commits the fetched entity to the cache, and returns it, so a second
resolve of the same ID performs zero network fetches. -/
theorem C1_resolution_cache_behavior :
    (∀ (ctx : Context) (c : Cache) (i : ChannelId) (e : Channel),
      ctx.cache = some c → c.get_channel i = some e →
      i.channel ctx = (.ok e, ctx, 0)) ∧
    (∀ (ctx : Context) (c : Cache) (i : ChannelId) (e : Channel),
      ctx.cache = some c → c.get_channel i = none →
      ctx.http.fetch_channel i = .ok e → e.id = i →
      i.channel ctx =
          (.ok e, { ctx with cache := some (c.commit_channel e) }, 1) ∧
        ChannelId.channel i { ctx with cache := some (c.commit_channel e) } =
          (.ok e, { ctx with cache := some (c.commit_channel e) }, 0)) ∧
    (∀ (ctx : Context) (c : Cache) (i : ServerId) (e : Server),
      ctx.cache = some c → c.get_server i = some e →
      i.server ctx = (.ok e, ctx, 0)) ∧
    (∀ (ctx : Context) (c : Cache) (i : ServerId) (e : Server),
      ctx.cache = some c → c.get_server i = none →
      ctx.http.fetch_server i = .ok e → e.id = i →
      i.server ctx =
          (.ok e, { ctx with cache := some (c.commit_server e) }, 1) ∧
        ServerId.server i { ctx with cache := some (c.commit_server e) } =
          (.ok e, { ctx with cache := some (c.commit_server e) }, 0)) ∧
    (∀ (ctx : Context) (c : Cache) (i : UserId) (e : User),
      ctx.cache = some c → c.get_user i = some e →
      i.user ctx = (.ok e, ctx, 0)) ∧
    (∀ (ctx : Context) (c : Cache) (i : UserId) (e : User),
      ctx.cache = some c → c.get_user i = none →
      ctx.http.fetch_user i = .ok e → e.id = i →
      i.user ctx =
          (.ok e, { ctx with cache := some (c.commit_user e) }, 1) ∧
        UserId.user i { ctx with cache := some (c.commit_user e) } =
          (.ok e, { ctx with cache := some (c.commit_user e) }, 0)) := by
  refine ⟨?_, ?_, ?_, ?_, ?_, ?_⟩
  · intro ctx c i e hc hg
    simp [ChannelId.channel, cachedChannel, hc, hg]
  · intro ctx c i e hc hg hf hid
    constructor
    · simp [ChannelId.channel, cachedChannel, hc, hg, hf,
        Channel.commit_to_cache]
    · simp [ChannelId.channel, cachedChannel, Cache.get_channel,
        Cache.commit_channel, hid]
  · intro ctx c i e hc hg
    simp [ServerId.server, cachedServer, hc, hg]
  · intro ctx c i e hc hg hf hid
    constructor
    · simp [ServerId.server, cachedServer, hc, hg, hf,
        Server.commit_to_cache]
    · simp [ServerId.server, cachedServer, Cache.get_server,
        Cache.commit_server, hid]
  · intro ctx c i e hc hg
    simp [UserId.user, cachedUser, hc, hg]
  · intro ctx c i e hc hg hf hid
    constructor
    · simp [UserId.user, cachedUser, hc, hg, hf, User.commit_to_cache]
    · simp [UserId.user, cachedUser, Cache.get_user, Cache.commit_user, hid]

/-- Witness for C1 at concrete inputs: channel c1 is cached and resolves with
zero fetches; channel c2 misses, resolves over the network with one fetch and
a committed result, and resolves again from the cache with zero fetches. -/
theorem C1_witness :
    (ctxEx.cache = some cacheEx ∧
      cacheEx.get_channel ⟨"c1"⟩ = some chanEx ∧
      ChannelId.channel ⟨"c1"⟩ ctxEx = (.ok chanEx, ctxEx, 0)) ∧
    (cacheEx.get_channel ⟨"c2"⟩ = none ∧
      ctxEx.http.fetch_channel ⟨"c2"⟩ = .ok chanEx2 ∧ chanEx2.id = ⟨"c2"⟩ ∧
      ChannelId.channel ⟨"c2"⟩ ctxEx =
        (.ok chanEx2,
          { ctxEx with cache := some (cacheEx.commit_channel chanEx2) }, 1) ∧
      ChannelId.channel ⟨"c2"⟩
          { ctxEx with cache := some (cacheEx.commit_channel chanEx2) } =
        (.ok chanEx2,
          { ctxEx with cache := some (cacheEx.commit_channel chanEx2) }, 0)) := by
  have hmiss :=
    C1_resolution_cache_behavior.2.1 ctxEx cacheEx ⟨"c2"⟩ chanEx2 rfl
      (by decide) rfl (by decide)
  exact ⟨⟨rfl, by decide,
      C1_resolution_cache_behavior.1 ctxEx cacheEx ⟨"c1"⟩ chanEx rfl
        (by decide)⟩,
    ⟨by decide, rfl, by decide, hmiss.1, hmiss.2⟩⟩

/-- C7: when the network fetch for an ID fails, the resolution function
returns exactly that fetch error and leaves the context, its cache included,
unchanged. -/
theorem C7_fetch_error_verbatim :
    (∀ (ctx : Context) (i : ChannelId) (err : FetchError),
      cachedChannel ctx i = none → ctx.http.fetch_channel i = .error err →
      i.channel ctx = (.error err, ctx, 1)) ∧
    (∀ (ctx : Context) (i : ServerId) (err : FetchError),
      cachedServer ctx i = none → ctx.http.fetch_server i = .error err →
      i.server ctx = (.error err, ctx, 1)) ∧
    (∀ (ctx : Context) (i : UserId) (err : FetchError),
      cachedUser ctx i = none → ctx.http.fetch_user i = .error err →
      i.user ctx = (.error err, ctx, 1)) := by
  refine ⟨?_, ?_, ?_⟩
  · intro ctx i err hm hf
    simp [ChannelId.channel, hm, hf]
  · intro ctx i err hm hf
    simp [ServerId.server, hm, hf]
  · intro ctx i err hm hf
    simp [UserId.user, hm, hf]

/-- Witness for C7 at concrete inputs: fetching server s9 fails with the
error down, which ServerIdExt::server returns verbatim, leaving the context
unchanged. -/
theorem C7_witness :
    cachedServer ctxEx ⟨"s9"⟩ = none ∧
      ctxEx.http.fetch_server ⟨"s9"⟩ = .error ⟨"down"⟩ ∧
      ServerId.server ⟨"s9"⟩ ctxEx = (.error ⟨"down"⟩, ctxEx, 1) :=
  ⟨by decide, rfl,
    C7_fetch_error_verbatim.2.1 ctxEx ⟨"s9"⟩ ⟨"down"⟩ (by decide) rfl⟩

/-- C8: with no cache configured, every resolution performs the network
fetch, commit is the identity, and the result is exactly the fetch result:
Ok of the fetched entity exactly when the fetch succeeds, with the context
unchanged. -/
theorem C8_no_cache_degradation :
    ∀ ctx : Context, ctx.cache = none →
      (∀ i : ChannelId, i.channel ctx = (ctx.http.fetch_channel i, ctx, 1)) ∧
      (∀ i : ServerId, i.server ctx = (ctx.http.fetch_server i, ctx, 1)) ∧
      (∀ i : UserId, i.user ctx = (ctx.http.fetch_user i, ctx, 1)) := by
  intro ctx h
  refine ⟨fun i => ?_, fun i => ?_, fun i => ?_⟩
  · cases hf : ctx.http.fetch_channel i <;>
      simp [ChannelId.channel, cachedChannel, Channel.commit_to_cache, h, hf]
  · cases hf : ctx.http.fetch_server i <;>
      simp [ServerId.server, cachedServer, Server.commit_to_cache, h, hf]
  · cases hf : ctx.http.fetch_user i <;>
      simp [UserId.user, cachedUser, User.commit_to_cache, h, hf]

/-- Witness for C8 at concrete inputs: with no cache configured, resolving
channel c2 returns exactly the fetch result with one fetch. -/
theorem C8_witness :
    ctxNoCache.cache = none ∧
      ChannelId.channel ⟨"c2"⟩ ctxNoCache =
        (ctxNoCache.http.fetch_channel ⟨"c2"⟩, ctxNoCache, 1) :=
  ⟨rfl, (C8_no_cache_degradation ctxNoCache rfl).1 ⟨"c2"⟩⟩

/-- C9: the four per-kind resolvers (channel, server, user, member) are
instances of one and the same algorithm: on every context and ID each agrees
with the generic spec funnel of section 4.4 instantiated for its kind, in
result, cache partition and fetch count, so all four exhibit the same
cache-first, fetch-on-miss, write-through behavior. -/
theorem C9_uniform_funnel :
    ∀ ctx : Context,
      (∀ i : ChannelId, projChannels (i.channel ctx) =
        specResolve Channel.id ctx.http.fetch_channel
          (ctx.cache.map Cache.channels) i) ∧
      (∀ i : ServerId, projServers (i.server ctx) =
        specResolve Server.id ctx.http.fetch_server
          (ctx.cache.map Cache.servers) i) ∧
      (∀ i : UserId, projUsers (i.user ctx) =
        specResolve User.id ctx.http.fetch_user
          (ctx.cache.map Cache.users) i) ∧
      (∀ i : MemberId, projMembers (i.member ctx) =
        specResolve Member.id ctx.http.fetch_member
          (ctx.cache.map Cache.members) i) := by
  intro ctx
  refine ⟨fun i => ?_, fun i => ?_, fun i => ?_, fun i => ?_⟩
  · cases hc : ctx.cache with
    | none =>
      cases hf : ctx.http.fetch_channel i <;>
        simp [ChannelId.channel, cachedChannel, projChannels, specResolve,
          portGet, portCommit, Channel.commit_to_cache, hc, hf]
    | some c =>
      cases hg : c.channels i with
      | some e =>
        simp [ChannelId.channel, cachedChannel, projChannels, specResolve,
          portGet, Cache.get_channel, hc, hg]
      | none =>
        cases hf : ctx.http.fetch_channel i <;>
          simp [ChannelId.channel, cachedChannel, projChannels, specResolve,
            portGet, portCommit, Cache.get_channel, Cache.commit_channel,
            Channel.commit_to_cache, Channel.id, hc, hg, hf]
  · cases hc : ctx.cache with
    | none =>
      cases hf : ctx.http.fetch_server i <;>
        simp [ServerId.server, cachedServer, projServers, specResolve,
          portGet, portCommit, Server.commit_to_cache, hc, hf]
    | some c =>
      cases hg : c.servers i with
      | some e =>
        simp [ServerId.server, cachedServer, projServers, specResolve,
          portGet, Cache.get_server, hc, hg]
      | none =>
        cases hf : ctx.http.fetch_server i <;>
          simp [ServerId.server, cachedServer, projServers, specResolve,
            portGet, portCommit, Cache.get_server, Cache.commit_server,
            Server.commit_to_cache, Server.id, hc, hg, hf]
  · cases hc : ctx.cache with
    | none =>
      cases hf : ctx.http.fetch_user i <;>
        simp [UserId.user, cachedUser, projUsers, specResolve, portGet,
          portCommit, User.commit_to_cache, hc, hf]
    | some c =>
      cases hg : c.users i with
      | some e =>
        simp [UserId.user, cachedUser, projUsers, specResolve, portGet,
          Cache.get_user, hc, hg]
      | none =>
        cases hf : ctx.http.fetch_user i <;>
          simp [UserId.user, cachedUser, projUsers, specResolve, portGet,
            portCommit, Cache.get_user, Cache.commit_user,
            User.commit_to_cache, User.id, hc, hg, hf]
  · cases hc : ctx.cache with
    | none =>
      cases hf : ctx.http.fetch_member i <;>
        simp [MemberId.member, cachedMember, projMembers, specResolve,
          portGet, portCommit, Member.commit_to_cache, hc, hf]
    | some c =>
      cases hg : c.members i with
      | some e =>
        simp [MemberId.member, cachedMember, projMembers, specResolve,
          portGet, Cache.get_member, hc, hg]
      | none =>
        cases hf : ctx.http.fetch_member i <;>
          simp [MemberId.member, cachedMember, projMembers, specResolve,
            portGet, portCommit, Cache.get_member, Cache.commit_member,
            Member.commit_to_cache, Member.id, hc, hg, hf]

/-- C10: for every message, nonce and content, MessageExt::reply and
MessageExt::reply_ping build identical send requests, each carrying exactly
one reply reference to the message's own ID with mention false, so
reply_ping does not mention the replied-to author. -/
theorem C10_reply_equals_reply_ping :
    ∀ (m : Message) (nonce content : String),
      m.reply nonce content = m.reply_ping nonce content ∧
      (m.reply nonce content).replies = [⟨m.id, false⟩] ∧
      (∀ r ∈ (m.reply_ping nonce content).replies, r.mention = false) := by
  intro m nonce content
  refine ⟨rfl, rfl, ?_⟩
  intro r hr
  simp [Message.reply_ping, ChannelId.send_message, CreateMessage.default,
    CreateMessage.content', CreateMessage.reply'] at hr
  rw [hr]

/-- C2 counterexample: no inbound event can name two or more fields to clear
at once, refuting the claim that the clear payload of the update variants is
an optional set of field tags; events.rs declares it as an optional single
field tag. -/
theorem C2_counterexample :
    ¬ ∃ ev : ServerToClientEvent, 2 ≤ ev.clearedFieldCount := by
  rintro ⟨ev, h⟩
  have hle : ev.clearedFieldCount ≤ 1 := by
    cases ev <;> simp only [ServerToClientEvent.clearedFieldCount] <;>
      first
        | exact optCount_le_one _
        | omega
  omega

/-- C2 amended: every update-style inbound event carries its clear payload as
an optional single field tag, so one update event names at most one field to
clear. -/
theorem C2_clear_single_field :
    ∀ ev : ServerToClientEvent, ev.clearedFieldCount ≤ 1 := by
  intro ev
  cases ev <;> simp only [ServerToClientEvent.clearedFieldCount] <;>
    first
      | exact optCount_le_one _
      | omega

/-- C3: both outbound authentication variants serialize under the same wire
discriminator: the type field of the encoding of Authenticate and of
AuthenticateBot is the string Authenticate in both cases. -/
theorem C3_auth_same_discriminator :
    ∀ (uid : UserId) (stok btok : String),
      (ClientToServerEvent.encode (.Authenticate uid stok)).get? "type" =
          some (.str "Authenticate") ∧
        (ClientToServerEvent.encode (.AuthenticateBot btok)).get? "type" =
          some (.str "Authenticate") :=
  fun _ _ _ => ⟨rfl, rfl⟩

/-- C6: encoding then decoding round-trips: every outbound event decodes back
from its encoding under the modelled inverse decoder, and every inbound
event, the symmetric Pong in particular, decodes back from its modelled
encoding through the decoder serde derives from events.rs. -/
theorem C6_roundtrip :
    (∀ e : ClientToServerEvent,
      ClientToServerEvent.decode (ClientToServerEvent.encode e) = .ok e) ∧
    (∀ ev : ServerToClientEvent,
      ServerToClientEvent.decode (ServerToClientEvent.encode ev) = .ok ev) := by
  constructor
  · intro e
    cases e <;> rfl
  · intro ev
    cases ev with
    | Error e => rfl
    | Authenticated => rfl
    | Pong t => rfl
    | Ready r =>
      obtain ⟨us, ss, cs, ms⟩ := r
      simp [ServerToClientEvent.encode, ServerToClientEvent.decode,
        Json.get?, lookupField, getArr,
        decodeList_ok user_decode_encode,
        decodeList_ok server_decode_encode,
        decodeList_ok channel_decode_encode,
        decodeList_ok member_decode_encode, Bind.bind, Except.bind]
    | Message m => rfl
    | MessageUpdate i ch d =>
      obtain ⟨c⟩ := d
      cases c <;> rfl
    | MessageDelete i ch => rfl
    | ChannelCreate c =>
      obtain ⟨i, n, d, sv⟩ := c
      cases d <;> cases sv <;> rfl
    | ChannelUpdate i d cl =>
      obtain ⟨n, ds⟩ := d
      cases n <;> cases ds <;> rcases cl with _ | f <;>
        first
          | rfl
          | (cases f <;> rfl)
    | ChannelDelete i => rfl
    | ChannelGroupJoin i u => rfl
    | ChannelGroupLeave i u => rfl
    | ChannelStartTyping i u => rfl
    | ChannelStopTyping i u => rfl
    | ChannelAck i u m => rfl
    | ServerUpdate i d cl =>
      obtain ⟨n, ds⟩ := d
      cases n <;> cases ds <;> rcases cl with _ | f <;>
        first
          | rfl
          | (cases f <;> rfl)
    | ServerDelete i => rfl
    | ServerMemberUpdate i d cl =>
      obtain ⟨n⟩ := d
      cases n <;> rcases cl with _ | f <;>
        first
          | rfl
          | (cases f <;> rfl)
    | ServerMemberJoin i u => rfl
    | ServerMemberLeave i u => rfl
    | ServerRoleUpdate i ri d cl =>
      obtain ⟨n, co⟩ := d
      cases n <;> cases co <;> rcases cl with _ | f <;> rfl
    | ServerRoleDelete i ri => rfl
    | UserUpdate i d cl =>
      obtain ⟨n, st⟩ := d
      cases n <;> cases st <;> rcases cl with _ | f <;>
        first
          | rfl
          | (cases f <;> rfl)
    | UserRelationship i u st => cases st <;> rfl

/-- C4: an update wire message without a clear key decodes successfully with
clear equal to none: canonical messages of all five update variants lacking
the key decode to events with clear none, and for every update payload whose
clear key is absent, any successful decode carries clear none rather than
failing or clearing everything. -/
theorem C4_absent_clear_decodes_none :
    (∀ (i : String) (d : PartialChannel),
      ServerToClientEvent.decode (.obj [("type", .str "ChannelUpdate"),
          ("id", .str i), ("data", d.encode)]) =
        .ok (.ChannelUpdate ⟨i⟩ d none)) ∧
    (∀ (i : String) (d : PartialServer),
      ServerToClientEvent.decode (.obj [("type", .str "ServerUpdate"),
          ("id", .str i), ("data", d.encode)]) =
        .ok (.ServerUpdate ⟨i⟩ d none)) ∧
    (∀ (i : String) (d : PartialMember),
      ServerToClientEvent.decode (.obj [("type", .str "ServerMemberUpdate"),
          ("id", .str i), ("data", d.encode)]) =
        .ok (.ServerMemberUpdate ⟨i⟩ d none)) ∧
    (∀ (i r : String) (d : PartialRole),
      ServerToClientEvent.decode (.obj [("type", .str "ServerRoleUpdate"),
          ("id", .str i), ("role_id", .str r), ("data", d.encode)]) =
        .ok (.ServerRoleUpdate ⟨i⟩ ⟨r⟩ d none)) ∧
    (∀ (i : String) (d : PartialUser),
      ServerToClientEvent.decode (.obj [("type", .str "UserUpdate"),
          ("id", .str i), ("data", d.encode)]) =
        .ok (.UserUpdate ⟨i⟩ d none)) ∧
    (∀ (j : Json) (i : ChannelId) (d : PartialChannel)
        (cl : Option ChannelField), j.get? "clear" = none →
      decodeChannelUpdate j = .ok (.ChannelUpdate i d cl) → cl = none) ∧
    (∀ (j : Json) (i : ServerId) (d : PartialServer)
        (cl : Option ServerField), j.get? "clear" = none →
      decodeServerUpdate j = .ok (.ServerUpdate i d cl) → cl = none) ∧
    (∀ (j : Json) (i : MemberId) (d : PartialMember)
        (cl : Option MemberField), j.get? "clear" = none →
      decodeServerMemberUpdate j = .ok (.ServerMemberUpdate i d cl) →
      cl = none) ∧
    (∀ (j : Json) (i : ServerId) (r : RoleId) (d : PartialRole)
        (cl : Option RoleField), j.get? "clear" = none →
      decodeServerRoleUpdate j = .ok (.ServerRoleUpdate i r d cl) →
      cl = none) ∧
    (∀ (j : Json) (i : UserId) (d : PartialUser) (cl : Option UserField),
      j.get? "clear" = none →
      decodeUserUpdate j = .ok (.UserUpdate i d cl) → cl = none) := by
  refine ⟨?_, ?_, ?_, ?_, ?_, ?_, ?_, ?_, ?_, ?_⟩
  · intro i d
    obtain ⟨n, ds⟩ := d
    cases n <;> cases ds <;> rfl
  · intro i d
    obtain ⟨n, ds⟩ := d
    cases n <;> cases ds <;> rfl
  · intro i d
    obtain ⟨n⟩ := d
    cases n <;> rfl
  · intro i r d
    obtain ⟨n, co⟩ := d
    cases n <;> cases co <;> rfl
  · intro i d
    obtain ⟨n, st⟩ := d
    cases n <;> cases st <;> rfl
  · intro j i d cl hclear h
    simp only [decodeChannelUpdate, except_bind_ok] at h
    obtain ⟨a, -, b, -, c, -, cc, hcc, heq⟩ := h
    simp only [getOptClear, hclear, Except.ok.injEq] at hcc
    simp only [Except.ok.injEq, ServerToClientEvent.ChannelUpdate.injEq]
      at heq
    rw [← heq.2.2, ← hcc]
  · intro j i d cl hclear h
    simp only [decodeServerUpdate, except_bind_ok] at h
    obtain ⟨a, -, b, -, c, -, cc, hcc, heq⟩ := h
    simp only [getOptClear, hclear, Except.ok.injEq] at hcc
    simp only [Except.ok.injEq, ServerToClientEvent.ServerUpdate.injEq]
      at heq
    rw [← heq.2.2, ← hcc]
  · intro j i d cl hclear h
    simp only [decodeServerMemberUpdate, except_bind_ok] at h
    obtain ⟨a, -, b, -, c, -, cc, hcc, heq⟩ := h
    simp only [getOptClear, hclear, Except.ok.injEq] at hcc
    simp only [Except.ok.injEq,
      ServerToClientEvent.ServerMemberUpdate.injEq] at heq
    rw [← heq.2.2, ← hcc]
  · intro j i r d cl hclear h
    simp only [decodeServerRoleUpdate, except_bind_ok] at h
    obtain ⟨a, -, a2, -, b, -, c, -, cc, hcc, heq⟩ := h
    simp only [getOptClear, hclear, Except.ok.injEq] at hcc
    simp only [Except.ok.injEq,
      ServerToClientEvent.ServerRoleUpdate.injEq] at heq
    rw [← heq.2.2.2, ← hcc]
  · intro j i d cl hclear h
    simp only [decodeUserUpdate, except_bind_ok] at h
    obtain ⟨a, -, b, -, c, -, cc, hcc, heq⟩ := h
    simp only [getOptClear, hclear, Except.ok.injEq] at hcc
    simp only [Except.ok.injEq, ServerToClientEvent.UserUpdate.injEq] at heq
    rw [← heq.2.2, ← hcc]

/-- Witness for C4 at a concrete input: a ChannelUpdate message without a
clear key decodes to an event with clear none. -/
theorem C4_witness :
    channelUpdateNoClearEx.get? "clear" = none ∧
      decodeChannelUpdate channelUpdateNoClearEx =
        .ok (.ChannelUpdate ⟨"c1"⟩ ⟨some "renamed", none⟩ none) ∧
      (none : Option ChannelField) = none :=
  ⟨rfl, rfl,
    C4_absent_clear_decodes_none.2.2.2.2.2.1 channelUpdateNoClearEx ⟨"c1"⟩
      ⟨some "renamed", none⟩ none rfl rfl⟩

/-- C5: decoding an inbound message whose type discriminator is not one of
the recognized variant tags fails with the decode error carrying that raw
tag, with the concrete message of type Bogus as an instance, and a
recognized tag with a structurally invalid payload, such as Pong without a
time field, fails with the decode error naming the mismatching field. -/
theorem C5_decode_errors :
    (∀ (j : Json) (tag : String), j.get? "type" = some (.str tag) →
      tag ∉ inboundTags →
      ServerToClientEvent.decode j = .error (.unknownTag tag)) ∧
    ServerToClientEvent.decode (.obj [("type", .str "Bogus")]) =
      .error (.unknownTag "Bogus") ∧
    (∀ j : Json, j.get? "type" = some (.str "Pong") →
      j.get? "time" = none →
      ServerToClientEvent.decode j = .error (.badPayload "time")) := by
  refine ⟨?_, rfl, ?_⟩
  · intro j tag hj htag
    simp only [inboundTags, List.mem_cons, List.not_mem_nil, or_false,
      not_or] at htag
    obtain ⟨h1, h2, h3, h4, h5, h6, h7, h8, h9, h10, h11, h12, h13, h14,
      h15, h16, h17, h18, h19, h20, h21, h22, h23, h24⟩ := htag
    simp [ServerToClientEvent.decode, hj, h1, h2, h3, h4, h5, h6, h7, h8,
      h9, h10, h11, h12, h13, h14, h15, h16, h17, h18, h19, h20, h21, h22,
      h23, h24]
  · intro j hj ht
    simp [ServerToClientEvent.decode, hj, getNum, ht, Bind.bind, Except.bind]

/-- Witness for C5 at concrete inputs: the tag Bogus is unrecognized and its
message decodes to the unknown-tag error, and a Pong message without a time
field decodes to the structural error naming time. -/
theorem C5_witness :
    ((Json.obj [("type", .str "Bogus")]).get? "type" =
        some (.str "Bogus") ∧
      "Bogus" ∉ inboundTags ∧
      ServerToClientEvent.decode (.obj [("type", .str "Bogus")]) =
        .error (.unknownTag "Bogus")) ∧
    ((Json.obj [("type", .str "Pong")]).get? "type" =
        some (.str "Pong") ∧
      (Json.obj [("type", .str "Pong")]).get? "time" = none ∧
      ServerToClientEvent.decode (.obj [("type", .str "Pong")]) =
        .error (.badPayload "time")) :=
  ⟨⟨rfl, by decide,
      C5_decode_errors.1 (.obj [("type", .str "Bogus")]) "Bogus" rfl
        (by decide)⟩,
    ⟨rfl, rfl,
      C5_decode_errors.2.2 (.obj [("type", .str "Pong")]) rfl rfl⟩⟩

end Robespierre
